import Mathlib

/-!
Shallow embedding of the session-verification cache engine of
rauth-provider-go: the in-memory Session Store and Revocation Store
(`internal/infrastructure/session_store.go`, `revoked_store.go`), the
orchestrating `SessionService` (`internal/usecase`, found as
`src/unnamed/part_004`), and the webhook processor
(`internal/delivery/webhook_handler.go`).

Modelling choices:
- Instants (`time.Time`) are integers (seconds); Go's `time.Now().After(e)`
  is the strict comparison `now > e`.  Each Go function that calls
  `time.Now()` takes `now : Int` explicitly.
- Go's `(T, error)` multi-returns are embedded as pairs with
  `Option DomainError`; store `Get`, which in Go returns either
  `(nil, err)` or `(ptr, nil)`, is embedded as `Except DomainError _`.
- The stores' maps (`map[string]*T`) are functions `String → Option T`;
  a store operation returns its result together with the updated map
  (Get deletes expired entries as a side effect).
- The remote API client (`domain.APIClient.VerifySession`) is an
  abstract parameter `api : String → String → Bool × Option DomainError`;
  the engine's `VerifySession` additionally reports how many times it
  invoked the remote client on the taken path.
-/

/-- Errors of `internal/domain/errors.go` (the ones the embedded code can
produce), plus `errorf` for errors built with `fmt.Errorf`. -/
inductive DomainError where
  | errSessionNotFound
  | errSessionExpired
  | errSessionRevoked
  | errInvalidPhoneNumber
  | apiError (statusCode : Int) (message : String)
  | errorf (message : String)
deriving Repr, DecidableEq

/-- Embeds `domain.Session` from `internal/domain/entities.go`. -/
structure Session where
  token : String
  userPhone : String
  createdAt : Int
  expiresAt : Int
deriving Repr, DecidableEq

/-- Embeds `domain.RevokedSession` from `internal/domain/entities.go`. -/
structure RevokedSession where
  token : String
  revokedAt : Int
  expiresAt : Int
deriving Repr, DecidableEq

/-- Embeds `domain.Config` from `internal/domain/entities.go` (TTLs in seconds). -/
structure Config where
  rauthAPIKey : String
  appID : String
  webhookSecret : String
  defaultSessionTTL : Int
  defaultRevokedTTL : Int
deriving Repr, DecidableEq

/-- The map `map[string]*domain.Session` owned by `SessionStore`. -/
def SessionMap : Type := String → Option Session

/-- The map `map[string]*domain.RevokedSession` owned by `RevokedSessionStore`. -/
def RevokedMap : Type := String → Option RevokedSession

namespace SessionStore

/-- Embeds `SessionStore.Store`: upsert by token, never errors
(`session_store.go` lines 25-31). -/
def put (m : SessionMap) (s : Session) : SessionMap :=
  fun t => if t = s.token then some s else m t

/-- Embeds `SessionStore.Get` (`session_store.go` lines 34-55): not found →
`ErrSessionNotFound`; found but `time.Now().After(ExpiresAt)` → delete the
entry and return `ErrSessionExpired`; otherwise return the record.
Returns the result together with the updated map. -/
def get (m : SessionMap) (now : Int) (token : String) :
    Except DomainError Session × SessionMap :=
  match m token with
  | none => (.error .errSessionNotFound, m)
  | some s =>
      if now > s.expiresAt then
        (.error .errSessionExpired, fun t => if t = token then none else m t)
      else
        (.ok s, m)

/-- Embeds `SessionStore.Delete` (`session_store.go` lines 58-64): idempotent,
never errors. -/
def del (m : SessionMap) (token : String) : SessionMap × Option DomainError :=
  ((fun t => if t = token then none else m t), none)

/-- Embeds `SessionStore.Cleanup` (`session_store.go` lines 67-79): removes every
entry with `now.After(ExpiresAt)`; never errors. -/
def cleanup (m : SessionMap) (now : Int) : SessionMap :=
  fun t =>
    match m t with
    | none => none
    | some s => if now > s.expiresAt then none else some s

end SessionStore

namespace RevokedSessionStore

/-- Embeds `RevokedSessionStore.Store`: upsert by token, never errors
(`revoked_store.go` lines 25-31). -/
def put (m : RevokedMap) (rs : RevokedSession) : RevokedMap :=
  fun t => if t = rs.token then some rs else m t

/-- Embeds `RevokedSessionStore.Get` (`revoked_store.go` lines 34-55): not found →
`ErrSessionNotFound`; found but expired → delete the entry and return
`ErrSessionNotFound` (note: not the expiry variant); otherwise return the
record.  Returns the result together with the updated map. -/
def get (m : RevokedMap) (now : Int) (token : String) :
    Except DomainError RevokedSession × RevokedMap :=
  match m token with
  | none => (.error .errSessionNotFound, m)
  | some rs =>
      if now > rs.expiresAt then
        (.error .errSessionNotFound, fun t => if t = token then none else m t)
      else
        (.ok rs, m)

/-- Embeds `RevokedSessionStore.Cleanup` (`revoked_store.go` lines 58-70): removes
every entry with `now.After(ExpiresAt)`; never errors. -/
def cleanup (m : RevokedMap) (now : Int) : RevokedMap :=
  fun t =>
    match m t with
    | none => none
    | some rs => if now > rs.expiresAt then none else some rs

end RevokedSessionStore

/-- The mutable state the `SessionService` engine coordinates: the two
stores' maps. -/
structure EngineState where
  sessions : SessionMap
  revoked : RevokedMap

namespace SessionService

/-- Embeds `SessionService.IsSessionRevoked` (usecase, `part_004` lines 80-89):
`Get` on the revocation store; `ErrSessionNotFound` is converted to
`(false, nil)`, any other error is propagated, success means revoked. -/
def IsSessionRevoked (st : EngineState) (now : Int) (token : String) :
    (Bool × Option DomainError) × EngineState :=
  let r := RevokedSessionStore.get st.revoked now token
  let st1 : EngineState := { st with revoked := r.2 }
  match r.1 with
  | .error e =>
      if e = .errSessionNotFound then ((false, none), st1)
      else ((false, some e), st1)
  | .ok _ => ((true, none), st1)

/-- Embeds `SessionService.VerifySession` (usecase, `part_004` lines 34-77):
revocation check first, then the local session store, then the remote API
client; a verified remote answer is cached with `CreatedAt = now` and
`ExpiresAt = now + DefaultSessionTTL`.  The final `Nat` counts remote
client invocations on the taken path. -/
def VerifySession (cfg : Config)
    (api : String → String → Bool × Option DomainError)
    (st : EngineState) (now : Int) (sessionToken userPhone : String) :
    (Bool × Option DomainError) × EngineState × Nat :=
  let r := IsSessionRevoked st now sessionToken
  let st1 := r.2
  if r.1.2 ≠ none ∧ r.1.2 ≠ some DomainError.errSessionNotFound then
    ((false, r.1.2), st1, 0)
  else if r.1.1 then
    ((false, some .errSessionRevoked), st1, 0)
  else
    let g := SessionStore.get st1.sessions now sessionToken
    let st2 : EngineState := { st1 with sessions := g.2 }
    match g.1 with
    | .ok session =>
        if session.userPhone = userPhone then ((true, none), st2, 0)
        else ((false, some .errInvalidPhoneNumber), st2, 0)
    | .error _ =>
        let a := api sessionToken userPhone
        match a.2 with
        | some e => ((false, some e), st2, 1)
        | none =>
            if a.1 then
              let s : Session :=
                { token := sessionToken, userPhone := userPhone,
                  createdAt := now,
                  expiresAt := now + cfg.defaultSessionTTL }
              ((a.1, none),
               { st2 with sessions := SessionStore.put st2.sessions s }, 1)
            else
              ((a.1, none), st2, 1)

/-- Embeds `SessionService.RevokeSession` (usecase, `part_004` lines 92-107):
delete any session entry (absence is not an error), then upsert a
revocation record with `RevokedAt = now`,
`ExpiresAt = now + DefaultRevokedTTL`. -/
def RevokeSession (cfg : Config) (st : EngineState) (now : Int)
    (sessionToken : String) : Option DomainError × EngineState :=
  let d := SessionStore.del st.sessions sessionToken
  if d.2 ≠ none ∧ d.2 ≠ some DomainError.errSessionNotFound then
    (d.2, { st with sessions := d.1 })
  else
    let rs : RevokedSession :=
      { token := sessionToken, revokedAt := now,
        expiresAt := now + cfg.defaultRevokedTTL }
    (none,
     { sessions := d.1, revoked := RevokedSessionStore.put st.revoked rs })

/-- Embeds `SessionService.Cleanup` (usecase, `part_004` lines 110-118): sweep
both stores (each sweep never errors in the in-memory implementation). -/
def Cleanup (st : EngineState) (now : Int) : Option DomainError × EngineState :=
  (none,
   { sessions := SessionStore.cleanup st.sessions now,
     revoked := RevokedSessionStore.cleanup st.revoked now })

end SessionService

/-- Embeds `domain.WebhookEvent` from `internal/domain/entities.go`. -/
structure WebhookEvent where
  type : String
  sessionToken : String
  userPhone : String
  timestamp : Int
  signature : String
deriving Repr, DecidableEq

/-- Embeds `WebhookHandler.ProcessWebhook` (`webhook_handler.go` lines 31-42):
`session_verified` → no action, nil; `session_revoked` → `RevokeSession`;
any other type → `fmt.Errorf("unknown webhook event type: %s", ...)`. -/
def ProcessWebhook (cfg : Config) (st : EngineState) (now : Int)
    (event : WebhookEvent) : Option DomainError × EngineState :=
  if event.type = "session_verified" then
    (none, st)
  else if event.type = "session_revoked" then
    SessionService.RevokeSession cfg st now event.sessionToken
  else
    (some (.errorf ("unknown webhook event type: " ++ event.type)), st)

/-- Holds when the revocation store has no non-expired record for `token`
at instant `now` (either no record, or one the next read would expire). -/
def noActiveRevocation (m : RevokedMap) (now : Int) (token : String) : Bool :=
  match m token with
  | none => true
  | some rs => now > rs.expiresAt

/-- Holds when the session store has no non-expired record for `token`
at instant `now` (either no record, or one the next read would expire). -/
def noActiveSession (m : SessionMap) (now : Int) (token : String) : Bool :=
  match m token with
  | none => true
  | some s => now > s.expiresAt

/-- A concrete configuration used by the closed instances below. -/
def cfg0 : Config :=
  { rauthAPIKey := "key", appID := "app", webhookSecret := "whs",
    defaultSessionTTL := 900, defaultRevokedTTL := 3600 }

/-- A session store holding one record for token `tok` bound to phone
`p1`, created at 0, expiring at 100. -/
def sessions0 : SessionMap :=
  fun t => if t = "tok" then
    some { token := "tok", userPhone := "p1", createdAt := 0, expiresAt := 100 }
  else none

/-- A revocation store holding one record for token `tok`, revoked at 0,
expiring at 100. -/
def revoked0 : RevokedMap :=
  fun t => if t = "tok" then
    some { token := "tok", revokedAt := 0, expiresAt := 100 }
  else none

/-- The empty session store. -/
def emptySessions : SessionMap := fun _ => none

/-- The empty revocation store. -/
def emptyRevoked : RevokedMap := fun _ => none

/-- Engine state with both a live session record and a live revocation
record for `tok`. -/
def stBoth : EngineState := { sessions := sessions0, revoked := revoked0 }

/-- Engine state with a live session record for `tok` and no revocations. -/
def stSession : EngineState := { sessions := sessions0, revoked := emptyRevoked }

/-- Engine state with both stores empty. -/
def stEmpty : EngineState := { sessions := emptySessions, revoked := emptyRevoked }

/-- Engine state whose only session record for `tok` is already expired at
instant 200, with no revocations. -/
def stExpired : EngineState :=
  { sessions := fun t => if t = "tok" then
      some { token := "tok", userPhone := "p1", createdAt := 0, expiresAt := 100 }
    else none,
    revoked := emptyRevoked }

/-- A remote client stub that reports verified for every call. -/
def apiYes : String → String → Bool × Option DomainError := fun _ _ => (true, none)

/-- A remote client stub that reports not-verified for every call. -/
def apiNo : String → String → Bool × Option DomainError := fun _ _ => (false, none)

/-- A remote client stub that fails every call with a transport error
(an `APIError` with status code 0, as `api_client.go` produces). -/
def apiFail : String → String → Bool × Option DomainError :=
  fun _ _ => (false, some (.apiError 0 "failed to make request"))

/-- Helper: when the revocation store holds no non-expired record for the
token, `IsSessionRevoked` answers `(false, nil)` and leaves the session
map untouched. -/
theorem isSessionRevoked_of_noActive (st : EngineState) (now : Int)
    (token : String)
    (h : noActiveRevocation st.revoked now token = true) :
    (SessionService.IsSessionRevoked st now token).1 = (false, none) ∧
    (SessionService.IsSessionRevoked st now token).2.sessions = st.sessions := by
  unfold SessionService.IsSessionRevoked RevokedSessionStore.get
  unfold noActiveRevocation at h
  cases hm : st.revoked token with
  | none => simp [hm]
  | some rs =>
      rw [hm] at h
      simp only [decide_eq_true_eq] at h
      simp [hm, h]

/-- C1: a token with a non-expired revocation record is always rejected
with `ErrSessionRevoked` by `VerifySession`, whatever the session store
holds and whatever the remote client would answer. -/
theorem verifySession_revocation_wins (cfg : Config)
    (api : String → String → Bool × Option DomainError)
    (st : EngineState) (now : Int) (token phone : String)
    (rs : RevokedSession) (h1 : st.revoked token = some rs)
    (h2 : ¬ now > rs.expiresAt) :
    (SessionService.VerifySession cfg api st now token phone).1 =
      (false, some DomainError.errSessionRevoked) := by
  unfold SessionService.VerifySession SessionService.IsSessionRevoked
    RevokedSessionStore.get
  simp [h1, h2]

/-- Closed instance of C1: at instant 50 the state `stBoth` holds both a
live session record for `tok` with the matching phone and a live
revocation record; verification still fails with `ErrSessionRevoked`. -/
theorem verifySession_revocation_wins_witness :
    (SessionService.VerifySession cfg0 apiYes stBoth 50 "tok" "p1").1 =
      (false, some DomainError.errSessionRevoked) :=
  verifySession_revocation_wins cfg0 apiYes stBoth 50 "tok" "p1"
    { token := "tok", revokedAt := 0, expiresAt := 100 }
    (by decide) (by decide)

/-- Helper: when the session store holds no non-expired record for the
token, `Get` fails, afterwards no record for the token remains, and every
other token's entry is untouched. -/
theorem sessionGet_of_noActive (m : SessionMap) (now : Int) (token : String)
    (h : noActiveSession m now token = true) :
    (∃ e, (SessionStore.get m now token).1 = .error e) ∧
    (SessionStore.get m now token).2 token = none ∧
    ∀ t', t' ≠ token → (SessionStore.get m now token).2 t' = m t' := by
  unfold SessionStore.get
  unfold noActiveSession at h
  cases hm : m token with
  | none => simp [hm]
  | some s =>
      rw [hm] at h
      simp only [decide_eq_true_eq] at h
      refine ⟨⟨.errSessionExpired, by simp [hm, h]⟩, by simp [hm, h], ?_⟩
      intro t' ht'
      simp [hm, h, ht']

/-- C4: with no non-expired revocation and a non-expired cached session
record, `VerifySession` never touches the remote client; it returns valid
when the cached phone matches the caller's and fails with
`ErrInvalidPhoneNumber` otherwise. -/
theorem verifySession_cache_hit (cfg : Config)
    (api : String → String → Bool × Option DomainError)
    (st : EngineState) (now : Int) (token phone : String)
    (hrev : noActiveRevocation st.revoked now token = true)
    (s : Session) (h1 : st.sessions token = some s)
    (h2 : ¬ now > s.expiresAt) :
    (SessionService.VerifySession cfg api st now token phone).2.2 = 0 ∧
    (s.userPhone = phone →
      (SessionService.VerifySession cfg api st now token phone).1 =
        (true, none)) ∧
    (s.userPhone ≠ phone →
      (SessionService.VerifySession cfg api st now token phone).1 =
        (false, some DomainError.errInvalidPhoneNumber)) := by
  obtain ⟨hr1, hr2⟩ := isSessionRevoked_of_noActive st now token hrev
  have hget : SessionStore.get st.sessions now token = (.ok s, st.sessions) := by
    unfold SessionStore.get
    simp [h1, h2]
  unfold SessionService.VerifySession
  refine ⟨?_, ?_, ?_⟩
  · simp only [hr1, hr2, hget]
    simp
    split <;> rfl
  · intro hp
    simp [hr1, hr2, hget, hp]
  · intro hp
    simp [hr1, hr2, hget, hp]

/-- Closed instance of C4: a cached record for `tok` bound to `p1` is
valid for `p1` without a remote call, and rejected for `p2` with
`ErrInvalidPhoneNumber`. -/
theorem verifySession_cache_hit_witness :
    ((SessionService.VerifySession cfg0 apiYes stSession 50 "tok" "p1").1 =
       (true, none) ∧
     (SessionService.VerifySession cfg0 apiYes stSession 50 "tok" "p1").2.2 = 0) ∧
    (SessionService.VerifySession cfg0 apiYes stSession 50 "tok" "p2").1 =
      (false, some DomainError.errInvalidPhoneNumber) := by
  have hm := verifySession_cache_hit cfg0 apiYes stSession 50 "tok" "p1"
    (by decide)
    { token := "tok", userPhone := "p1", createdAt := 0, expiresAt := 100 }
    (by decide) (by decide)
  have hn := verifySession_cache_hit cfg0 apiYes stSession 50 "tok" "p2"
    (by decide)
    { token := "tok", userPhone := "p1", createdAt := 0, expiresAt := 100 }
    (by decide) (by decide)
  exact ⟨⟨hm.2.1 rfl, hm.1⟩, hn.2.2 (by decide)⟩

/-- C2 counterexample: under the claim's own hypotheses (no non-expired
revocation, no non-expired session record — here an expired record for
`tok` is still present) and a remote answering not-verified,
`VerifySession` returns invalid but the Session Store is NOT left
unchanged: the expired record is deleted by the lazy-expiry read. -/
theorem verifySession_negative_cache_counterexample :
    noActiveRevocation stExpired.revoked 200 "tok" = true ∧
    noActiveSession stExpired.sessions 200 "tok" = true ∧
    (SessionService.VerifySession cfg0 apiNo stExpired 200 "tok" "p1").1 =
      (false, none) ∧
    (SessionService.VerifySession cfg0 apiNo stExpired 200 "tok" "p1").2.1.sessions
        "tok" ≠ stExpired.sessions "tok" := by
  decide

/-- C2 as amended: on a cache miss (no non-expired revocation, no
non-expired session record), a verified remote answer caches exactly the
record `{token, phone, createdAt = now, expiresAt = now + sessionTTL}`
and returns valid; a not-verified answer returns invalid and leaves no
record for the token (the only possible change being the lazy deletion of
an already-expired record), touching no other token's entry. -/
theorem verifySession_cache_miss (cfg : Config)
    (api : String → String → Bool × Option DomainError)
    (st : EngineState) (now : Int) (token phone : String)
    (hrev : noActiveRevocation st.revoked now token = true)
    (hsess : noActiveSession st.sessions now token = true) :
    (api token phone = (true, none) →
      (SessionService.VerifySession cfg api st now token phone).1 =
        (true, none) ∧
      (SessionService.VerifySession cfg api st now token phone).2.1.sessions
          token =
        some { token := token, userPhone := phone, createdAt := now,
               expiresAt := now + cfg.defaultSessionTTL }) ∧
    (api token phone = (false, none) →
      (SessionService.VerifySession cfg api st now token phone).1 =
        (false, none) ∧
      (SessionService.VerifySession cfg api st now token phone).2.1.sessions
          token = none ∧
      ∀ t', t' ≠ token →
        (SessionService.VerifySession cfg api st now token phone).2.1.sessions
            t' = st.sessions t') := by
  obtain ⟨hr1, hr2⟩ := isSessionRevoked_of_noActive st now token hrev
  obtain ⟨⟨e, he⟩, hg1, hg2⟩ := sessionGet_of_noActive st.sessions now token hsess
  unfold SessionService.VerifySession
  constructor
  · intro hapi
    simp [hr1, hr2, he, hapi, SessionStore.put]
  · intro hapi
    refine ⟨by simp [hr1, hr2, he, hapi], by simp [hr1, hr2, he, hapi, hg1], ?_⟩
    intro t' ht'
    simp [hr1, hr2, he, hapi, hg2 t' ht']

/-- Closed instance of the amended C2: from the empty state, a verified
remote answer caches the record for `tok` with phone `p1` and TTL 900 and
returns valid; a not-verified answer returns invalid and caches nothing. -/
theorem verifySession_cache_miss_witness :
    ((SessionService.VerifySession cfg0 apiYes stEmpty 0 "tok" "p1").1 =
       (true, none) ∧
     (SessionService.VerifySession cfg0 apiYes stEmpty 0 "tok" "p1").2.1.sessions
         "tok" =
       some { token := "tok", userPhone := "p1", createdAt := 0,
              expiresAt := 900 }) ∧
    ((SessionService.VerifySession cfg0 apiNo stEmpty 0 "tok" "p1").1 =
       (false, none) ∧
     (SessionService.VerifySession cfg0 apiNo stEmpty 0 "tok" "p1").2.1.sessions
         "tok" = none) := by
  have hy := verifySession_cache_miss cfg0 apiYes stEmpty 0 "tok" "p1"
    (by decide) (by decide)
  have hn := verifySession_cache_miss cfg0 apiNo stEmpty 0 "tok" "p1"
    (by decide) (by decide)
  have hy' := hy.1 rfl
  have hn' := hn.2 rfl
  refine ⟨⟨hy'.1, ?_⟩, hn'.1, hn'.2.1⟩
  rw [hy'.2]
  decide

/-- C3: on a cache miss, a remote client error is propagated unchanged by
`VerifySession` (never coerced into a plain valid or invalid answer). -/
theorem verifySession_remote_error_propagates (cfg : Config)
    (api : String → String → Bool × Option DomainError)
    (st : EngineState) (now : Int) (token phone : String)
    (hrev : noActiveRevocation st.revoked now token = true)
    (hsess : noActiveSession st.sessions now token = true)
    (e : DomainError) (hapi : (api token phone).2 = some e) :
    (SessionService.VerifySession cfg api st now token phone).1 =
      (false, some e) := by
  obtain ⟨hr1, hr2⟩ := isSessionRevoked_of_noActive st now token hrev
  obtain ⟨⟨e0, he⟩, _, _⟩ := sessionGet_of_noActive st.sessions now token hsess
  unfold SessionService.VerifySession
  simp [hr1, hr2, he, hapi]

/-- Closed instance of C3: a transport error (`APIError` with status 0)
from the remote stub comes back verbatim from `VerifySession`. -/
theorem verifySession_remote_error_propagates_witness :
    (SessionService.VerifySession cfg0 apiFail stEmpty 0 "tok" "p1").1 =
      (false, some (DomainError.apiError 0 "failed to make request")) :=
  verifySession_remote_error_propagates cfg0 apiFail stEmpty 0 "tok" "p1"
    (by decide) (by decide) _ rfl

/-- C5 counterexample: at the boundary instant `now = expires-at` (here
both 100), `SessionStore.Get` returns the record, not NotFound — Go's
`time.Now().After` is strict, so the claim's `now ≥ expires-at` is wrong
at equality. -/
theorem sessionGet_boundary_counterexample :
    (SessionStore.get sessions0 100 "tok").1 =
      .ok { token := "tok", userPhone := "p1", createdAt := 0,
            expiresAt := 100 } := by
  unfold SessionStore.get sessions0
  simp

/-- C5 as amended: whenever `now` is strictly after `expires-at`,
`SessionStore.Get` returns the expiry variant of NotFound
(`ErrSessionExpired`) instead of the stale record, deleting it as a side
effect; in particular a record with `expires-at = now - 1` is never
returned. -/
theorem sessionGet_expired (m : SessionMap) (now : Int) (token : String)
    (s : Session) (h1 : m token = some s) (h2 : now > s.expiresAt) :
    (SessionStore.get m now token).1 = .error .errSessionExpired ∧
    (SessionStore.get m now token).2 token = none := by
  unfold SessionStore.get
  simp [h1, h2]

/-- Closed instance of the amended C5: a record expiring at 100, read at
101 (one second stale), yields `ErrSessionExpired` and is deleted. -/
theorem sessionGet_expired_witness :
    (SessionStore.get sessions0 101 "tok").1 =
      .error .errSessionExpired ∧
    (SessionStore.get sessions0 101 "tok").2 "tok" = none :=
  sessionGet_expired sessions0 101 "tok"
    { token := "tok", userPhone := "p1", createdAt := 0, expiresAt := 100 }
    (by decide) (by decide)

/-- C6 counterexample: records whose `expires-at` equals `now` (here both
100) survive `Cleanup` in both stores — the sweep removes only records
with `expires-at < now`, not `expires-at ≤ now` as claimed. -/
theorem cleanup_boundary_counterexample :
    (SessionService.Cleanup stBoth 100).2.sessions "tok" ≠ none ∧
    (SessionService.Cleanup stBoth 100).2.revoked "tok" ≠ none := by
  decide

/-- C6 as amended: `Cleanup` keeps in each store exactly the records with
`expires-at ≥ now` (equivalently, it removes exactly those with
`expires-at < now`), and keeps them verbatim. -/
theorem cleanup_exact (st : EngineState) (now : Int) (t : String) :
    (∀ s : Session,
      (SessionService.Cleanup st now).2.sessions t = some s ↔
        st.sessions t = some s ∧ ¬ now > s.expiresAt) ∧
    (∀ rs : RevokedSession,
      (SessionService.Cleanup st now).2.revoked t = some rs ↔
        st.revoked t = some rs ∧ ¬ now > rs.expiresAt) := by
  unfold SessionService.Cleanup SessionStore.cleanup RevokedSessionStore.cleanup
  constructor
  · intro s
    cases hm : st.sessions t with
    | none => simp [hm]
    | some s0 =>
        rcases lt_or_le s0.expiresAt now with hx | hx
        · simp only [hm, if_pos hx]
          constructor
          · intro h
            exact Option.noConfusion h
          · rintro ⟨hs, hns⟩
            injection hs with hs'
            subst hs'
            exact absurd hx hns
        · have hx' : ¬ now > s0.expiresAt := not_lt.mpr hx
          simp only [hm, if_neg hx']
          constructor
          · intro h
            injection h with h'
            subst h'
            exact ⟨rfl, hx'⟩
          · intro h
            exact h.1
  · intro rs
    cases hm : st.revoked t with
    | none => simp [hm]
    | some r0 =>
        rcases lt_or_le r0.expiresAt now with hx | hx
        · simp only [hm, if_pos hx]
          constructor
          · intro h
            exact Option.noConfusion h
          · rintro ⟨hs, hns⟩
            injection hs with hs'
            subst hs'
            exact absurd hx hns
        · have hx' : ¬ now > r0.expiresAt := not_lt.mpr hx
          simp only [hm, if_neg hx']
          constructor
          · intro h
            injection h with h'
            subst h'
            exact ⟨rfl, hx'⟩
          · intro h
            exact h.1

/-- Closed instance of the amended C6: at instant 50, the live records of
`stBoth` (both expiring at 100) survive `Cleanup` verbatim. -/
theorem cleanup_exact_witness :
    (SessionService.Cleanup stBoth 50).2.sessions "tok" =
      some { token := "tok", userPhone := "p1", createdAt := 0,
             expiresAt := 100 } ∧
    (SessionService.Cleanup stBoth 50).2.revoked "tok" =
      some { token := "tok", revokedAt := 0, expiresAt := 100 } :=
  ⟨((cleanup_exact stBoth 50 "tok").1 _).mpr ⟨by decide, by decide⟩,
   ((cleanup_exact stBoth 50 "tok").2 _).mpr ⟨by decide, by decide⟩⟩

/-- C7: revoking twice in succession never errors, leaves exactly the one
revocation record stamped by the second call (`revoked-at = t2`,
`expires-at = t2 + revokedTTL`), removes any session entry for the token
(absence, as in an arbitrary starting state, is not an error), and
touches no other token's revocation entry. -/
theorem revokeSession_idempotent (cfg : Config) (st : EngineState)
    (t1 t2 : Int) (token : String) :
    (SessionService.RevokeSession cfg st t1 token).1 = none ∧
    (SessionService.RevokeSession cfg
       (SessionService.RevokeSession cfg st t1 token).2 t2 token).1 = none ∧
    (SessionService.RevokeSession cfg
       (SessionService.RevokeSession cfg st t1 token).2 t2 token).2.revoked
        token =
      some { token := token, revokedAt := t2,
             expiresAt := t2 + cfg.defaultRevokedTTL } ∧
    (SessionService.RevokeSession cfg
       (SessionService.RevokeSession cfg st t1 token).2 t2 token).2.sessions
        token = none ∧
    (∀ t', t' ≠ token →
      (SessionService.RevokeSession cfg
         (SessionService.RevokeSession cfg st t1 token).2 t2 token).2.revoked
          t' = st.revoked t') := by
  unfold SessionService.RevokeSession SessionStore.del RevokedSessionStore.put
  refine ⟨by simp, by simp, by simp, by simp, ?_⟩
  intro t' ht'
  simp [ht']

/-- Closed instance of C7: revoking `tok` at 0 and again at 10 (with TTL
3600) leaves the single record `{tok, revoked-at 10, expires-at 3610}`. -/
theorem revokeSession_idempotent_witness :
    (SessionService.RevokeSession cfg0
       (SessionService.RevokeSession cfg0 stEmpty 0 "tok").2 10 "tok").2.revoked
        "tok" =
      some { token := "tok", revokedAt := 10, expiresAt := 3610 } := by
  have h := revokeSession_idempotent cfg0 stEmpty 0 10 "tok"
  rw [h.2.2.1]
  decide

/-- C8 counterexample: an event of an unrecognized type (here `bogus`)
makes `ProcessWebhook` return an error, not success — the Go switch's
default arm returns `fmt.Errorf("unknown webhook event type: ...")`. -/
theorem processWebhook_unknown_counterexample :
    (ProcessWebhook cfg0 stEmpty 0
       { type := "bogus", sessionToken := "tok", userPhone := "p1",
         timestamp := 0, signature := "sig" }).1 ≠ none := by
  decide

/-- C8 as amended: `ProcessWebhook` calls `RevokeSession(sessionToken)`
exactly when the event type is `session_revoked`; `session_verified` is a
successful no-op; every other type leaves the state unchanged but returns
the `unknown webhook event type` error rather than success. -/
theorem processWebhook_dispatch (cfg : Config) (st : EngineState) (now : Int)
    (event : WebhookEvent) :
    (event.type = "session_revoked" →
      ProcessWebhook cfg st now event =
        SessionService.RevokeSession cfg st now event.sessionToken) ∧
    (event.type = "session_verified" →
      ProcessWebhook cfg st now event = (none, st)) ∧
    (event.type ≠ "session_revoked" → event.type ≠ "session_verified" →
      (ProcessWebhook cfg st now event).2 = st ∧
      (ProcessWebhook cfg st now event).1 =
        some (.errorf ("unknown webhook event type: " ++ event.type))) := by
  unfold ProcessWebhook
  refine ⟨?_, ?_, ?_⟩
  · intro h
    simp [h]
  · intro h
    simp [h]
  · intro h1 h2
    simp [h1, h2]

/-- Closed instance of the amended C8: a `session_revoked` event triggers
`RevokeSession` on its token; an `other` event leaves the state alone. -/
theorem processWebhook_dispatch_witness :
    ProcessWebhook cfg0 stSession 0
      { type := "session_revoked", sessionToken := "tok", userPhone := "p1",
        timestamp := 0, signature := "sig" } =
      SessionService.RevokeSession cfg0 stSession 0 "tok" ∧
    (ProcessWebhook cfg0 stEmpty 0
      { type := "other", sessionToken := "tok", userPhone := "p1",
        timestamp := 0, signature := "sig" }).2 = stEmpty := by
  have h1 := processWebhook_dispatch cfg0 stSession 0
    { type := "session_revoked", sessionToken := "tok", userPhone := "p1",
      timestamp := 0, signature := "sig" }
  have h2 := processWebhook_dispatch cfg0 stEmpty 0
    { type := "other", sessionToken := "tok", userPhone := "p1",
      timestamp := 0, signature := "sig" }
  exact ⟨h1.1 rfl, (h2.2.2 (by decide) (by decide)).1⟩

/-- C9: Put then Get round-trips in both stores — with the record's
`expires-at` strictly in the future at the instant of the read, `Get`
after `Put` returns exactly the stored record with no error and without
touching the map, in the Session Store and the Revocation Store alike. -/
theorem put_get_roundtrip (m : SessionMap) (mr : RevokedMap)
    (s : Session) (rs : RevokedSession) (now : Int)
    (h1 : now < s.expiresAt) (h2 : now < rs.expiresAt) :
    SessionStore.get (SessionStore.put m s) now s.token =
      (.ok s, SessionStore.put m s) ∧
    RevokedSessionStore.get (RevokedSessionStore.put mr rs) now rs.token =
      (.ok rs, RevokedSessionStore.put mr rs) := by
  have hs : ¬ now > s.expiresAt := by omega
  have hr : ¬ now > rs.expiresAt := by omega
  constructor
  · unfold SessionStore.get SessionStore.put
    simp [hs]
  · unfold RevokedSessionStore.get RevokedSessionStore.put
    simp [hr]

/-- Closed instance of C9: storing a record for `tok` into the empty
stores and reading it back at instant 50 yields it verbatim. -/
theorem put_get_roundtrip_witness :
    SessionStore.get
        (SessionStore.put emptySessions
          { token := "tok", userPhone := "p1", createdAt := 0,
            expiresAt := 100 }) 50 "tok" =
      (.ok { token := "tok", userPhone := "p1", createdAt := 0,
             expiresAt := 100 },
       SessionStore.put emptySessions
          { token := "tok", userPhone := "p1", createdAt := 0,
            expiresAt := 100 }) ∧
    RevokedSessionStore.get
        (RevokedSessionStore.put emptyRevoked
          { token := "tok", revokedAt := 0, expiresAt := 100 }) 50 "tok" =
      (.ok { token := "tok", revokedAt := 0, expiresAt := 100 },
       RevokedSessionStore.put emptyRevoked
          { token := "tok", revokedAt := 0, expiresAt := 100 }) :=
  put_get_roundtrip emptySessions emptyRevoked
    { token := "tok", userPhone := "p1", createdAt := 0, expiresAt := 100 }
    { token := "tok", revokedAt := 0, expiresAt := 100 }
    50 (by decide) (by decide)

/-- C10: `IsSessionRevoked` never reports an error over the in-memory
revocation store; it answers `false` both for a token with no revocation
record and for one whose record has expired (indistinguishably), deleting
the expired record as a side effect. -/
theorem isSessionRevoked_no_error (st : EngineState) (now : Int)
    (token : String) :
    (SessionService.IsSessionRevoked st now token).1.2 = none ∧
    (st.revoked token = none →
      (SessionService.IsSessionRevoked st now token).1.1 = false) ∧
    (∀ rs, st.revoked token = some rs → now > rs.expiresAt →
      (SessionService.IsSessionRevoked st now token).1.1 = false ∧
      (SessionService.IsSessionRevoked st now token).2.revoked token = none) := by
  unfold SessionService.IsSessionRevoked RevokedSessionStore.get
  refine ⟨?_, ?_, ?_⟩
  · cases hm : st.revoked token with
    | none => simp [hm]
    | some rs =>
        by_cases hx : now > rs.expiresAt
        · simp [hm, hx]
        · simp [hm, hx]
  · intro h
    simp [h]
  · intro rs h hx
    simp [h, hx]

/-- Closed instance of C10: on the empty store and on an expired
revocation record (state `stBoth` read at 200), `IsSessionRevoked`
answers `(false, nil)` and the expired record is gone afterwards. -/
theorem isSessionRevoked_no_error_witness :
    (SessionService.IsSessionRevoked stEmpty 0 "tok").1 = (false, none) ∧
    (SessionService.IsSessionRevoked stBoth 200 "tok").1.1 = false ∧
    (SessionService.IsSessionRevoked stBoth 200 "tok").2.revoked "tok" =
      none := by
  have h1 := isSessionRevoked_no_error stEmpty 0 "tok"
  have h2 := isSessionRevoked_no_error stBoth 200 "tok"
  have h2' := h2.2.2 { token := "tok", revokedAt := 0, expiresAt := 100 }
    (by decide) (by decide)
  refine ⟨?_, h2'.1, h2'.2⟩
  rw [Prod.ext_iff]
  exact ⟨h1.2.1 rfl, h1.1⟩
